import Mathlib

/-!
Verification of the power state machine of the Quectel M95 modem driver
(`m95.py`).  The driver's effectful procedures (`init` pin configuration,
`startup`, `shutdown`) are shallowly embedded as pure functions producing a
trace of GPIO/sleep/external-driver events.  The status pin is modelled as an
environment `env : Nat → Bool` giving the value returned by the n-th
`gpio.get(_status_pin)` sample of the run.
-/

namespace M95

/-- Logic levels, as in the source (`HIGH`/`LOW` builtins). -/
def HIGH : Bool := true

/-- Logic low level. -/
def LOW : Bool := false

/-- GPIO pin modes used by `init`. -/
inductive PinMode where
  | inputPulldown
  | inputPullup
  | outputPushpull
deriving DecidableEq, Repr

/-- Observable events of a run of the driver. -/
inductive Event where
  | mode (pin : Nat) (m : PinMode)
  | set (pin : Nat) (level : Bool)
  | sleep (ms : Nat)
  | getStatus (value : Bool)
  | extShutdown (result : Bool)
  | extStartup
  | raiseHW
deriving DecidableEq, Repr

/-- The single fatal error of the power state machine. -/
inductive MErr where
  | hardwareInitializationError
deriving DecidableEq, Repr

/-- The module-level pin configuration set by `init`
(`_power_pin`, `_power_on`, `_kill_pin`, `_kill_on`, `_status_pin`, `_status_on`). -/
structure Config where
  power_pin : Nat
  power_on : Bool
  kill_pin : Nat
  kill_on : Bool
  status_pin : Nat
  status_on : Bool
deriving DecidableEq, Repr

/-- The poll loop `for i in range(k): if stop(gpio.get(_status_pin)): break; sleep(interval)`.
Returns the events emitted, whether the loop broke (status reached), and the
next sample index.  Sampling happens before the first sleep, as in the source. -/
def poll (env : Nat → Bool) (stop : Bool → Bool) (interval : Nat) :
    Nat → Nat → List Event × Bool × Nat
  | 0, n => ([], false, n)
  | k+1, n =>
    if stop (env n) then
      ([Event.getStatus (env n)], true, n+1)
    else
      let r := poll env stop interval k (n+1)
      (Event.getStatus (env n) :: Event.sleep interval :: r.1, r.2.1, r.2.2)

/-- A pin pulse as written in the source: drive `HIGH ^ act` (inactive),
sleep `d1`, drive `act` (active), sleep `d2`, drive `HIGH ^ act` (inactive). -/
def pulse (pin : Nat) (act : Bool) (d1 d2 : Nat) : List Event :=
  [Event.set pin (Bool.xor HIGH act), Event.sleep d1,
   Event.set pin act, Event.sleep d2,
   Event.set pin (Bool.xor HIGH act)]

/-- Step 1 of `shutdown` (lines 131-138): when `_shutdown()` reports a
cooperative shutdown attempt (`ext`), poll the status pin for off with the
initial `timeout = 125` budget; exhaustion is not an error.  Returns the
events and the next sample index. -/
def coopPhase (cfg : Config) (env : Nat → Bool) (ext : Bool) : List Event × Nat :=
  if ext then
    let r := poll env (fun v => v != cfg.status_on) 100 125 0
    (Event.extShutdown true :: r.1, r.2.2)
  else
    ([Event.extShutdown false], 0)

/-- Step 2 of `shutdown` (lines 140-153): forced takes the kill pulse with
`timeout = 15`; otherwise sample the status pin and pulse the power pin only
when it reads on, with `timeout` staying 125.  Returns the events, the
`timeout` for the final poll, and the next sample index. -/
def shutdownBranch (cfg : Config) (env : Nat → Bool) (forced : Bool) (n : Nat) :
    List Event × Nat × Nat :=
  if forced then
    (pulse cfg.kill_pin cfg.kill_on 500 100, 15, n)
  else
    let v := env n
    if v = cfg.status_on then
      (Event.getStatus v :: pulse cfg.power_pin cfg.power_on 500 750, 125, n + 1)
    else
      ([Event.getStatus v], 125, n + 1)

/-- `shutdown(forced)` (lines 122-163): cooperative wait when `_shutdown()`
reports an attempt (`ext`), then the forced (kill-pulse) or graceful
(power-pulse when status reads on) branch, then the final verification poll
with the branch-selected `timeout`, raising on exhaustion, settling 500 ms on
success.  Returns the trace, the result, and the final value of the local
variable `timeout`. -/
def shutdown (cfg : Config) (env : Nat → Bool) (ext : Bool) (forced : Bool) :
    List Event × Except MErr Unit × Nat :=
  let coop := coopPhase cfg env ext
  let branch := shutdownBranch cfg env forced coop.2
  let fin := poll env (fun v => v != cfg.status_on) 100 branch.2.1 branch.2.2
  if fin.2.1 then
    (coop.1 ++ branch.1 ++ fin.1 ++ [Event.sleep 500], Except.ok (), branch.2.1)
  else
    (coop.1 ++ branch.1 ++ fin.1 ++ [Event.raiseHW],
     Except.error MErr.hardwareInitializationError, branch.2.1)

/-- `startup()` (lines 165-188): pulse the power pin unless status already
reads on, then poll for on with budget 20 at 100 ms, raising on exhaustion;
on success settle 500 ms and invoke the external `_startup()`. -/
def startup (cfg : Config) (env : Nat → Bool) : List Event × Except MErr Unit :=
  let first := env 0
  let pre : List Event :=
    if first != cfg.status_on then
      Event.getStatus first :: pulse cfg.power_pin cfg.power_on 500 1100
    else
      [Event.getStatus first]
  let fin := poll env (fun v => v == cfg.status_on) 100 20 1
  if fin.2.1 then
    (pre ++ fin.1 ++ [Event.sleep 500, Event.extStartup], Except.ok ())
  else
    (pre ++ fin.1 ++ [Event.raiseHW], Except.error MErr.hardwareInitializationError)

/-- The pin-configuration step of `init` (lines 68-72): status pin as input
with pull chosen by `_status_on`, kill and power pins as push-pull outputs
immediately driven to `HIGH ^ active`. -/
def initPins (cfg : Config) : List Event :=
  [Event.mode cfg.status_pin (if cfg.status_on then PinMode.inputPulldown else PinMode.inputPullup),
   Event.mode cfg.kill_pin PinMode.outputPushpull,
   Event.set cfg.kill_pin (Bool.xor HIGH cfg.kill_on),
   Event.mode cfg.power_pin PinMode.outputPushpull,
   Event.set cfg.power_pin (Bool.xor HIGH cfg.power_on)]

/-- Error raised by the unimplemented listening-socket operations. -/
inductive SockErr where
  | unsupportedError
deriving DecidableEq, Repr

/-- `listen(sock, maxlog=2)` (lines 222-223). -/
def listen (sock : Nat) (maxlog : Nat := 2) : Except SockErr Unit :=
  Except.error SockErr.unsupportedError

/-- `accept(sock)` (lines 225-226). -/
def accept (sock : Nat) : Except SockErr Unit :=
  Except.error SockErr.unsupportedError

/-- Socket-layer calls observable from `sendall`. -/
inductive SockCall where
  | send (sock : Nat) (buf : List Nat) (flags : Nat)
deriving DecidableEq, Repr

/-- `sendall(sock, buf, flags=0)` (lines 258-259): a single call to the native
`send` (modelled as an arbitrary function `sendImpl`), whose return value is
discarded; the Python function returns `None` (modelled `none`). -/
def sendall (sendImpl : Nat → List Nat → Nat → Int) (sock : Nat) (buf : List Nat)
    (flags : Nat) : List SockCall × Option Int :=
  let _ := sendImpl sock buf flags
  ([SockCall.send sock buf flags], none)

/-- Total time (ms) spent sleeping while pin `p` is driven at level `lvl`,
given the pin's (optional) known initial level. -/
def holdTime (p : Nat) (lvl : Bool) : List Event → Option Bool → Nat
  | [], _ => 0
  | Event.set q l :: rest, cur =>
    holdTime p lvl rest (if q = p then some l else cur)
  | Event.sleep d :: rest, cur =>
    (if cur = some lvl then d else 0) + holdTime p lvl rest cur
  | _ :: rest, cur => holdTime p lvl rest cur

/-- The levels written to pin `p` by the trace, in order. -/
def setsFor (p : Nat) : List Event → List Bool
  | [] => []
  | Event.set q l :: rest =>
    if q = p then l :: setsFor p rest else setsFor p rest
  | _ :: rest => setsFor p rest

/-- Level of pin `p` after the trace, given its (optional) initial level. -/
def trackCur (p : Nat) : List Event → Option Bool → Option Bool
  | [], cur => cur
  | Event.set q l :: rest, cur =>
    trackCur p rest (if q = p then some l else cur)
  | _ :: rest, cur => trackCur p rest cur

/-- Number of status-pin samples in a trace. -/
def countGets : List Event → Nat
  | [] => 0
  | Event.getStatus _ :: rest => countGets rest + 1
  | _ :: rest => countGets rest

/-- Example configuration with the default polarities of `init`
(power_on=LOW, kill_on=LOW, status_on=HIGH) on pins 0, 1, 2. -/
def cfgEx : Config :=
  { power_pin := 0, power_on := LOW, kill_pin := 1, kill_on := LOW,
    status_pin := 2, status_on := HIGH }

/-- Status environment: off at the first sample, on afterwards. -/
def envRise : Nat → Bool := fun n => decide (0 < n)

/-- Status environment: always on. -/
def envOnC : Nat → Bool := fun _ => true

/-- Status environment: always off. -/
def envOffC : Nat → Bool := fun _ => false

/-! ### Basic lemmas about the building blocks -/

theorem xor_high (a : Bool) : Bool.xor HIGH a = !a := by
  cases a <;> rfl

theorem poll_no_set (env : Nat → Bool) (stop : Bool → Bool) (i : Nat) :
    ∀ k n p l, Event.set p l ∉ (poll env stop i k n).1 := by
  intro k
  induction k with
  | zero => intro n p l; simp [poll]
  | succ k ih =>
    intro n p l
    by_cases h : stop (env n) = true
    · simp [poll, h]
    · simp only [poll, h, if_false, Bool.false_eq_true]
      intro hmem
      simp only [List.mem_cons] at hmem
      rcases hmem with h1 | h2 | h3
      · exact Event.noConfusion h1
      · exact Event.noConfusion h2
      · exact ih (n+1) p l h3

theorem poll_no_raise (env : Nat → Bool) (stop : Bool → Bool) (i : Nat) :
    ∀ k n, Event.raiseHW ∉ (poll env stop i k n).1 := by
  intro k
  induction k with
  | zero => intro n; simp [poll]
  | succ k ih =>
    intro n
    by_cases h : stop (env n) = true
    · simp [poll, h]
    · simp only [poll, h, if_false, Bool.false_eq_true]
      intro hmem
      simp only [List.mem_cons] at hmem
      rcases hmem with h1 | h2 | h3
      · exact Event.noConfusion h1
      · exact Event.noConfusion h2
      · exact ih (n+1) h3

theorem poll_no_ext (env : Nat → Bool) (stop : Bool → Bool) (i : Nat) :
    ∀ k n, Event.extStartup ∉ (poll env stop i k n).1 := by
  intro k
  induction k with
  | zero => intro n; simp [poll]
  | succ k ih =>
    intro n
    by_cases h : stop (env n) = true
    · simp [poll, h]
    · simp only [poll, h, if_false, Bool.false_eq_true]
      intro hmem
      simp only [List.mem_cons] at hmem
      rcases hmem with h1 | h2 | h3
      · exact Event.noConfusion h1
      · exact Event.noConfusion h2
      · exact ih (n+1) h3

theorem poll_stop_first (env : Nat → Bool) (stop : Bool → Bool) (i k n : Nat)
    (h : stop (env n) = true) :
    poll env stop i (k+1) n = ([Event.getStatus (env n)], true, n+1) := by
  simp [poll, h]

theorem poll_exhaust (env : Nat → Bool) (stop : Bool → Bool) (i : Nat)
    (h : ∀ m, stop (env m) = false) :
    ∀ k n, (poll env stop i k n).2.1 = false ∧ (poll env stop i k n).2.2 = n + k ∧
      countGets (poll env stop i k n).1 = k := by
  intro k
  induction k with
  | zero => intro n; simp [poll, countGets]
  | succ k ih =>
    intro n
    have hn := h n
    simp only [poll, hn, if_false, Bool.false_eq_true, countGets]
    rcases ih (n+1) with ⟨h1, h2, h3⟩
    refine ⟨h1, by omega, by rw [h3]⟩

theorem poll_success_last (env : Nat → Bool) (stop : Bool → Bool) (i : Nat) :
    ∀ k n, (poll env stop i k n).2.1 = true →
      ∃ pre v, (poll env stop i k n).1 = pre ++ [Event.getStatus v] ∧ stop v = true := by
  intro k
  induction k with
  | zero => intro n h; simp [poll] at h
  | succ k ih =>
    intro n h
    by_cases hs : stop (env n) = true
    · exact ⟨[], env n, by simp [poll, hs], hs⟩
    · simp only [poll, hs, if_false, Bool.false_eq_true] at h ⊢
      rcases ih (n+1) h with ⟨pre, v, hev, hv⟩
      exact ⟨Event.getStatus (env n) :: Event.sleep i :: pre, v, by rw [hev]; simp, hv⟩

theorem holdTime_append (p : Nat) (lvl : Bool) :
    ∀ (xs ys : List Event) (cur : Option Bool),
      holdTime p lvl (xs ++ ys) cur =
        holdTime p lvl xs cur + holdTime p lvl ys (trackCur p xs cur) := by
  intro xs
  induction xs with
  | nil => intro ys cur; simp [holdTime, trackCur]
  | cons e rest ih =>
    intro ys cur
    cases e with
    | set q l => simp [holdTime, trackCur, ih]
    | sleep d => simp [holdTime, trackCur, ih]; omega
    | mode pin m => simp [holdTime, trackCur, ih]
    | getStatus v => simp [holdTime, trackCur, ih]
    | extShutdown r => simp [holdTime, trackCur, ih]
    | extStartup => simp [holdTime, trackCur, ih]
    | raiseHW => simp [holdTime, trackCur, ih]

theorem holdTime_noSet (p : Nat) (lvl : Bool) :
    ∀ (evs : List Event) (cur : Option Bool), (∀ l, Event.set p l ∉ evs) →
      cur ≠ some lvl → holdTime p lvl evs cur = 0 := by
  intro evs
  induction evs with
  | nil => intro cur _ _; rfl
  | cons e rest ih =>
    intro cur hns hc
    have hrest : ∀ l, Event.set p l ∉ rest := by
      intro l hl; exact hns l (List.mem_cons_of_mem _ hl)
    cases e with
    | set q l =>
      have hqp : q ≠ p := by
        intro he; exact hns l (by rw [he]; exact List.mem_cons_self _ _)
      simp only [holdTime, if_neg hqp]
      exact ih cur hrest hc
    | sleep d =>
      simp only [holdTime, if_neg hc]
      rw [ih cur hrest hc]
    | mode pin m => exact ih cur hrest hc
    | getStatus v => exact ih cur hrest hc
    | extShutdown r => exact ih cur hrest hc
    | extStartup => exact ih cur hrest hc
    | raiseHW => exact ih cur hrest hc

theorem setsFor_append (p : Nat) :
    ∀ (xs ys : List Event), setsFor p (xs ++ ys) = setsFor p xs ++ setsFor p ys := by
  intro xs
  induction xs with
  | nil => intro ys; simp [setsFor]
  | cons e rest ih =>
    intro ys
    cases e with
    | set q l =>
      by_cases h : q = p
      · simp [setsFor, h, ih]
      · simp [setsFor, h, ih]
    | sleep d => simp [setsFor, ih]
    | mode pin m => simp [setsFor, ih]
    | getStatus v => simp [setsFor, ih]
    | extShutdown r => simp [setsFor, ih]
    | extStartup => simp [setsFor, ih]
    | raiseHW => simp [setsFor, ih]

theorem setsFor_noSet (p : Nat) :
    ∀ (evs : List Event), (∀ l, Event.set p l ∉ evs) → setsFor p evs = [] := by
  intro evs
  induction evs with
  | nil => intro _; rfl
  | cons e rest ih =>
    intro hns
    have hrest : ∀ l, Event.set p l ∉ rest := by
      intro l hl; exact hns l (List.mem_cons_of_mem _ hl)
    cases e with
    | set q l =>
      have hqp : q ≠ p := by
        intro he; exact hns l (by rw [he]; exact List.mem_cons_self _ _)
      simp only [setsFor, if_neg hqp]
      exact ih hrest
    | sleep d => exact ih hrest
    | mode pin m => exact ih hrest
    | getStatus v => exact ih hrest
    | extShutdown r => exact ih hrest
    | extStartup => exact ih hrest
    | raiseHW => exact ih hrest

theorem holdTime_pulse (p : Nat) (act : Bool) (d1 d2 : Nat) :
    holdTime p act (pulse p act d1 d2) none = d2 := by
  cases act <;> simp [pulse, holdTime, HIGH, Bool.xor]

theorem trackCur_pulse (p : Nat) (act : Bool) (d1 d2 : Nat) (cur : Option Bool) :
    trackCur p (pulse p act d1 d2) cur = some (Bool.xor HIGH act) := by
  simp [pulse, trackCur]

theorem setsFor_pulse (p : Nat) (act : Bool) (d1 d2 : Nat) :
    setsFor p (pulse p act d1 d2) = [Bool.xor HIGH act, act, Bool.xor HIGH act] := by
  simp [pulse, setsFor]

/-! ### Claim theorems -/

/-- C9: for every input, `listen(sock, maxlog)` and `accept(sock)` raise
`UnsupportedError` unconditionally. -/
theorem m95_c9 (sock maxlog : Nat) :
    listen sock maxlog = Except.error SockErr.unsupportedError
    ∧ accept sock = Except.error SockErr.unsupportedError :=
  ⟨rfl, rfl⟩

/-- C10: for every input, `sendall(sock, buf, flags)` performs exactly one call
to `send` with the same arguments, discards its return value (the result does
not depend on `sendImpl`), and returns `None`. -/
theorem m95_c10 (sendImpl : Nat → List Nat → Nat → Int) (sock : Nat)
    (buf : List Nat) (flags : Nat) :
    sendall sendImpl sock buf flags = ([SockCall.send sock buf flags], none) :=
  rfl

/-- C7: for every combination of active levels, the pin-configuration step of
`init` configures the status pin as an input with pull opposite to its active
level (pull-down when `status_on` is active-high, pull-up otherwise) and the
kill and power pins as push-pull outputs immediately driven to
`HIGH XOR active`, which is never the active level. -/
theorem m95_c7 (cfg : Config) :
    initPins cfg =
      [Event.mode cfg.status_pin
        (if cfg.status_on = HIGH then PinMode.inputPulldown else PinMode.inputPullup),
       Event.mode cfg.kill_pin PinMode.outputPushpull,
       Event.set cfg.kill_pin (!cfg.kill_on),
       Event.mode cfg.power_pin PinMode.outputPushpull,
       Event.set cfg.power_pin (!cfg.power_on)]
    ∧ (!cfg.kill_on) ≠ cfg.kill_on ∧ (!cfg.power_on) ≠ cfg.power_on := by
  obtain ⟨pp, po, kp, ko, sp, so⟩ := cfg
  cases po <;> cases ko <;> cases so <;> simp [initPins, HIGH]

/-- C2: for every status environment and every `_shutdown()` report,
`shutdown(forced=True)` emits the kill-pin pulse right after the cooperative
phase (the kill branch samples no status pin), and the final verification
poll runs with the short `timeout = 15` budget. -/
theorem m95_c2 (cfg : Config) (env : Nat → Bool) (ext : Bool) :
    (∃ finEvs tail,
      (shutdown cfg env ext true).1 =
        (coopPhase cfg env ext).1 ++
          (pulse cfg.kill_pin cfg.kill_on 500 100 ++ (finEvs ++ tail)))
    ∧ (∀ v, Event.getStatus v ∉ pulse cfg.kill_pin cfg.kill_on 500 100)
    ∧ (shutdown cfg env ext true).2.2 = 15 := by
  have hb : shutdownBranch cfg env true (coopPhase cfg env ext).2
      = (pulse cfg.kill_pin cfg.kill_on 500 100, 15, (coopPhase cfg env ext).2) := by
    simp [shutdownBranch]
  refine ⟨?_, ?_, ?_⟩
  · cases h : (poll env (fun v => v != cfg.status_on) 100 15 (coopPhase cfg env ext).2).2.1
    · exact ⟨(poll env (fun v => v != cfg.status_on) 100 15 (coopPhase cfg env ext).2).1,
        [Event.raiseHW], by simp [shutdown, hb, h]⟩
    · exact ⟨(poll env (fun v => v != cfg.status_on) 100 15 (coopPhase cfg env ext).2).1,
        [Event.sleep 500], by simp [shutdown, hb, h]⟩
  · intro v; simp [pulse]
  · cases h : (poll env (fun v => v != cfg.status_on) 100 15 (coopPhase cfg env ext).2).2.1 <;>
      simp [shutdown, hb, h]

/-- C4: `startup()` invoked while the status pin reads the configured on-level
performs no `gpio.set` at all and returns without error. -/
theorem m95_c4 (cfg : Config) (env : Nat → Bool) (h : ∀ n, env n = cfg.status_on) :
    (∀ p l, Event.set p l ∉ (startup cfg env).1)
    ∧ (startup cfg env).2 = Except.ok () := by
  have h0 : (env 0 != cfg.status_on) = false := by simp [h 0]
  have h1 : ((fun v => v == cfg.status_on) (env 1)) = true := by simp [h 1]
  have hp : poll env (fun v => v == cfg.status_on) 100 20 1
      = ([Event.getStatus (env 1)], true, 2) :=
    poll_stop_first env (fun v => v == cfg.status_on) 100 19 1 h1
  constructor
  · intro p l
    simp [startup, h0, hp]
  · simp [startup, h0, hp]

/-- C5: `shutdown(forced=False)` invoked while the status pin reads off
performs no `gpio.set`, runs the final verification with the long
`timeout = 125` budget, and returns without error. -/
theorem m95_c5 (cfg : Config) (env : Nat → Bool) (ext : Bool)
    (h : ∀ n, env n ≠ cfg.status_on) :
    (∀ p l, Event.set p l ∉ (shutdown cfg env ext false).1)
    ∧ (shutdown cfg env ext false).2.1 = Except.ok ()
    ∧ (shutdown cfg env ext false).2.2 = 125 := by
  have hs : ∀ m, ((fun v => v != cfg.status_on) (env m)) = true := by
    intro m; simp [h m]
  have hp : ∀ k n, poll env (fun v => v != cfg.status_on) 100 (k+1) n
      = ([Event.getStatus (env n)], true, n+1) :=
    fun k n => poll_stop_first env (fun v => v != cfg.status_on) 100 k n (hs n)
  cases ext
  · have hb : shutdownBranch cfg env false 0 = ([Event.getStatus (env 0)], 125, 1) := by
      simp [shutdownBranch, h 0]
    have hp1 : poll env (fun v => v != cfg.status_on) 100 125 1
        = ([Event.getStatus (env 1)], true, 2) := hp 124 1
    refine ⟨?_, ?_, ?_⟩
    · intro p l
      simp [shutdown, coopPhase, hb, hp1]
    · simp [shutdown, coopPhase, hb, hp1]
    · simp [shutdown, coopPhase, hb, hp1]
  · have hp0 : poll env (fun v => v != cfg.status_on) 100 125 0
        = ([Event.getStatus (env 0)], true, 1) := hp 124 0
    have hb : shutdownBranch cfg env false 1 = ([Event.getStatus (env 1)], 125, 2) := by
      simp [shutdownBranch, h 1]
    have hp2 : poll env (fun v => v != cfg.status_on) 100 125 2
        = ([Event.getStatus (env 2)], true, 3) := hp 124 2
    refine ⟨?_, ?_, ?_⟩
    · intro p l
      simp [shutdown, coopPhase, hp0, hb, hp2]
    · simp [shutdown, coopPhase, hp0, hb, hp2]
    · simp [shutdown, coopPhase, hp0, hb, hp2]

/-- C3: when the status pin never reads the target level, `startup()` and
`shutdown(forced)` both raise `HardwareInitializationError`, and the raise is
the last event of the trace: no further `gpio.set` and no settle sleep follow
it. -/
theorem m95_c3 (cfg : Config) (envOn envOff : Nat → Bool) (ext forced : Bool)
    (hOn : ∀ n, envOn n = cfg.status_on) (hOff : ∀ n, envOff n ≠ cfg.status_on) :
    ((startup cfg envOff).2 = Except.error MErr.hardwareInitializationError
      ∧ ∃ pre, (startup cfg envOff).1 = pre ++ [Event.raiseHW])
    ∧ ((shutdown cfg envOn ext forced).2.1 = Except.error MErr.hardwareInitializationError
      ∧ ∃ pre, (shutdown cfg envOn ext forced).1 = pre ++ [Event.raiseHW]) := by
  have hsOff : ∀ m, ((fun v => v == cfg.status_on) (envOff m)) = false := by
    intro m; simp [hOff m]
  have hsOn : ∀ m, ((fun v => v != cfg.status_on) (envOn m)) = false := by
    intro m; simp [hOn m]
  have hfinOff : (poll envOff (fun v => v == cfg.status_on) 100 20 1).2.1 = false :=
    (poll_exhaust envOff (fun v => v == cfg.status_on) 100 hsOff 20 1).1
  have hfinOn : ∀ k n, (poll envOn (fun v => v != cfg.status_on) 100 k n).2.1 = false :=
    fun k n => (poll_exhaust envOn (fun v => v != cfg.status_on) 100 hsOn k n).1
  have h0 : (envOff 0 != cfg.status_on) = true := by simp [hOff 0]
  refine ⟨⟨?_, ?_⟩, ?_, ?_⟩
  · simp [startup, hfinOff]
  · exact ⟨Event.getStatus (envOff 0) ::
      (pulse cfg.power_pin cfg.power_on 500 1100
        ++ (poll envOff (fun v => v == cfg.status_on) 100 20 1).1),
      by simp [startup, h0, hfinOff]⟩
  · simp [shutdown, hfinOn]
  · exact ⟨(coopPhase cfg envOn ext).1 ++
      ((shutdownBranch cfg envOn forced (coopPhase cfg envOn ext).2).1 ++
        (poll envOn (fun v => v != cfg.status_on) 100
          (shutdownBranch cfg envOn forced (coopPhase cfg envOn ext).2).2.1
          (shutdownBranch cfg envOn forced (coopPhase cfg envOn ext).2).2.2).1),
      by simp [shutdown, hfinOn]⟩

/-- C6: the cooperative-shutdown wait of step 1 runs its full 125-sample
budget only when `_shutdown()` reports an attempt, its exhaustion emits no
raise, and in both cases `shutdown(forced=True)` falls through to the
kill-pin pulse; the only raise comes from the final verification poll. -/
theorem m95_c6 (cfg : Config) (env : Nat → Bool) (h : ∀ n, env n = cfg.status_on) :
    countGets (poll env (fun v => v != cfg.status_on) 100 125 0).1 = 125
    ∧ Event.raiseHW ∉ (poll env (fun v => v != cfg.status_on) 100 125 0).1
    ∧ (shutdown cfg env true true).1
        = Event.extShutdown true :: ((poll env (fun v => v != cfg.status_on) 100 125 0).1
          ++ (pulse cfg.kill_pin cfg.kill_on 500 100
            ++ ((poll env (fun v => v != cfg.status_on) 100 15 125).1 ++ [Event.raiseHW])))
    ∧ (shutdown cfg env false true).1
        = Event.extShutdown false :: (pulse cfg.kill_pin cfg.kill_on 500 100
          ++ ((poll env (fun v => v != cfg.status_on) 100 15 0).1 ++ [Event.raiseHW])) := by
  have hs : ∀ m, ((fun v => v != cfg.status_on) (env m)) = false := by
    intro m; simp [h m]
  have hco := poll_exhaust env (fun v => v != cfg.status_on) 100 hs 125 0
  have hfin : ∀ k n, (poll env (fun v => v != cfg.status_on) 100 k n).2.1 = false :=
    fun k n => (poll_exhaust env (fun v => v != cfg.status_on) 100 hs k n).1
  refine ⟨hco.2.2, poll_no_raise env (fun v => v != cfg.status_on) 100 125 0, ?_, ?_⟩
  · have hcnt : (poll env (fun v => v != cfg.status_on) 100 125 0).2.2 = 125 := by
      rw [hco.2.1]
    simp [shutdown, coopPhase, shutdownBranch, hfin, hcnt]
  · simp [shutdown, coopPhase, shutdownBranch, hfin]

/-- C8: the external `_startup()` handshake happens only as the very last
event, immediately after the 500 ms settle sleep that follows a status
sample reading the on-level; on the failure path it is never emitted. -/
theorem m95_c8 (cfg : Config) (env : Nat → Bool) :
    ((startup cfg env).2 = Except.ok () →
      ∃ pre, (startup cfg env).1
        = pre ++ [Event.getStatus cfg.status_on, Event.sleep 500, Event.extStartup])
    ∧ ((startup cfg env).2 ≠ Except.ok () →
      Event.extStartup ∉ (startup cfg env).1) := by
  cases hf : (poll env (fun v => v == cfg.status_on) 100 20 1).2.1
  · constructor
    · intro hok
      exfalso
      simp [startup, hf] at hok
    · intro _
      have hpoll := poll_no_ext env (fun v => v == cfg.status_on) 100 20 1
      by_cases h0 : (env 0 != cfg.status_on) = true
      · simp only [startup, h0, hf, if_true, if_false, Bool.false_eq_true]
        intro hmem
        simp only [List.append_assoc, List.mem_append, List.mem_cons,
          List.mem_singleton, List.not_mem_nil] at hmem
        rcases hmem with h1 | h2 | h3
        · rcases h1 with h1 | h1
          · exact Event.noConfusion h1
          · simp [pulse] at h1
        · exact hpoll h2
        · rcases h3 with h3 | h3
          · exact Event.noConfusion h3
          · simp at h3
      · simp only [startup, h0, hf, if_true, if_false, Bool.false_eq_true]
        intro hmem
        simp only [List.append_assoc, List.mem_append, List.mem_cons,
          List.mem_singleton, List.not_mem_nil] at hmem
        rcases hmem with h1 | h2 | h3
        · rcases h1 with h1 | h1
          · exact Event.noConfusion h1
          · simp at h1
        · exact hpoll h2
        · rcases h3 with h3 | h3
          · exact Event.noConfusion h3
          · simp at h3
  · constructor
    · intro _
      rcases poll_success_last env (fun v => v == cfg.status_on) 100 20 1 hf with
        ⟨pre, v, hev, hv⟩
      have hveq : v = cfg.status_on := by simpa using hv
      subst hveq
      by_cases h0 : (env 0 != cfg.status_on) = true
      · exact ⟨(Event.getStatus (env 0) :: pulse cfg.power_pin cfg.power_on 500 1100) ++ pre,
          by simp [startup, h0, hf, hev]⟩
      · exact ⟨Event.getStatus (env 0) :: pre, by simp [startup, h0, hf, hev]⟩
    · intro hne
      exact absurd (by simp [startup, hf]) hne

theorem trackCur_noSet (p : Nat) :
    ∀ (evs : List Event) (cur : Option Bool), (∀ l, Event.set p l ∉ evs) →
      trackCur p evs cur = cur := by
  intro evs
  induction evs with
  | nil => intro cur _; rfl
  | cons e rest ih =>
    intro cur hns
    have hrest : ∀ l, Event.set p l ∉ rest := by
      intro l hl; exact hns l (List.mem_cons_of_mem _ hl)
    cases e with
    | set q l =>
      have hqp : q ≠ p := by
        intro he; exact hns l (by rw [he]; exact List.mem_cons_self _ _)
      simp only [trackCur, if_neg hqp]
      exact ih cur hrest
    | sleep d => exact ih cur hrest
    | mode pin m => exact ih cur hrest
    | getStatus v => exact ih cur hrest
    | extShutdown r => exact ih cur hrest
    | extStartup => exact ih cur hrest
    | raiseHW => exact ih cur hrest

/-- A pulse framed by events that never write the pulsed pin: the pin sees
exactly the writes inactive, active, inactive, and the time spent at the
active level is exactly the second sub-delay `d2`. -/
theorem pulse_ctx (p : Nat) (act : Bool) (d1 d2 : Nat) (A B : List Event)
    (hA : ∀ l, Event.set p l ∉ A) (hB : ∀ l, Event.set p l ∉ B) :
    setsFor p (A ++ (pulse p act d1 d2 ++ B)) = [!act, act, !act]
    ∧ holdTime p act (A ++ (pulse p act d1 d2 ++ B)) none = d2 := by
  have hne : (some (Bool.xor HIGH act) : Option Bool) ≠ some act := by
    cases act <;> simp [HIGH, Bool.xor]
  constructor
  · rw [setsFor_append, setsFor_append, setsFor_noSet p A hA, setsFor_noSet p B hB,
      setsFor_pulse, xor_high]
    simp
  · rw [holdTime_append, holdTime_noSet p act A none hA (by simp),
      trackCur_noSet p A none hA, holdTime_append, holdTime_pulse, trackCur_pulse,
      holdTime_noSet p act B _ hB hne]
    omega

/-- When status initially reads off, the `startup` trace is the initial
sample, the power pulse, then pulse-free events. -/
theorem startup_pulse_decomp (cfg : Config) (env : Nat → Bool)
    (h0 : env 0 ≠ cfg.status_on) :
    ∃ B, (startup cfg env).1
        = [Event.getStatus (env 0)] ++ (pulse cfg.power_pin cfg.power_on 500 1100 ++ B)
      ∧ ∀ p l, Event.set p l ∉ B := by
  have hb : (env 0 != cfg.status_on) = true := by simp [h0]
  cases hf : (poll env (fun v => v == cfg.status_on) 100 20 1).2.1
  · refine ⟨(poll env (fun v => v == cfg.status_on) 100 20 1).1 ++ [Event.raiseHW], ?_, ?_⟩
    · simp [startup, hb, hf]
    · intro p l hmem
      simp only [List.mem_append, List.mem_singleton] at hmem
      rcases hmem with h1 | h2
      · exact poll_no_set env _ 100 20 1 p l h1
      · exact Event.noConfusion h2
  · refine ⟨(poll env (fun v => v == cfg.status_on) 100 20 1).1
        ++ [Event.sleep 500, Event.extStartup], ?_, ?_⟩
    · simp [startup, hb, hf]
    · intro p l hmem
      simp only [List.mem_append, List.mem_cons, List.mem_singleton] at hmem
      rcases hmem with h1 | h2 | h3
      · exact poll_no_set env _ 100 20 1 p l h1
      · exact Event.noConfusion h2
      · simp at h3

/-- When status reads on at the pulse-decision point, the graceful
`shutdown` trace is the cooperative report, the decision sample, the power
pulse, then pulse-free events. -/
theorem shutdown_graceful_decomp (cfg : Config) (env : Nat → Bool)
    (h0 : env 0 = cfg.status_on) :
    ∃ B, (shutdown cfg env false false).1
        = [Event.extShutdown false, Event.getStatus cfg.status_on]
          ++ (pulse cfg.power_pin cfg.power_on 500 750 ++ B)
      ∧ ∀ p l, Event.set p l ∉ B := by
  have hbranch : shutdownBranch cfg env false 0
      = (Event.getStatus cfg.status_on :: pulse cfg.power_pin cfg.power_on 500 750,
         125, 1) := by
    simp [shutdownBranch, h0]
  cases hf : (poll env (fun v => v != cfg.status_on) 100 125 1).2.1
  · refine ⟨(poll env (fun v => v != cfg.status_on) 100 125 1).1 ++ [Event.raiseHW], ?_, ?_⟩
    · simp [shutdown, coopPhase, hbranch, hf]
    · intro p l hmem
      simp only [List.mem_append, List.mem_singleton] at hmem
      rcases hmem with h1 | h2
      · exact poll_no_set env _ 100 125 1 p l h1
      · exact Event.noConfusion h2
  · refine ⟨(poll env (fun v => v != cfg.status_on) 100 125 1).1 ++ [Event.sleep 500], ?_, ?_⟩
    · simp [shutdown, coopPhase, hbranch, hf]
    · intro p l hmem
      simp only [List.mem_append, List.mem_singleton] at hmem
      rcases hmem with h1 | h2
      · exact poll_no_set env _ 100 125 1 p l h1
      · exact Event.noConfusion h2

theorem coopPhase_no_set (cfg : Config) (env : Nat → Bool) (ext : Bool) :
    ∀ p l, Event.set p l ∉ (coopPhase cfg env ext).1 := by
  intro p l
  cases ext
  · simp [coopPhase]
  · simp only [coopPhase, if_true]
    intro hmem
    rcases List.mem_cons.mp hmem with h1 | h2
    · exact Event.noConfusion h1
    · exact poll_no_set env _ 100 125 0 p l h2

/-- The forced `shutdown` trace is pulse-free events, the kill pulse, then
pulse-free events, for every status environment. -/
theorem shutdown_forced_decomp (cfg : Config) (env : Nat → Bool) (ext : Bool) :
    ∃ A B, (shutdown cfg env ext true).1 = A ++ (pulse cfg.kill_pin cfg.kill_on 500 100 ++ B)
      ∧ (∀ p l, Event.set p l ∉ A) ∧ (∀ p l, Event.set p l ∉ B) := by
  have hbranch : shutdownBranch cfg env true (coopPhase cfg env ext).2
      = (pulse cfg.kill_pin cfg.kill_on 500 100, 15, (coopPhase cfg env ext).2) := by
    simp [shutdownBranch]
  cases hf : (poll env (fun v => v != cfg.status_on) 100 15 (coopPhase cfg env ext).2).2.1
  · refine ⟨(coopPhase cfg env ext).1,
      (poll env (fun v => v != cfg.status_on) 100 15 (coopPhase cfg env ext).2).1
        ++ [Event.raiseHW], ?_, coopPhase_no_set cfg env ext, ?_⟩
    · simp [shutdown, hbranch, hf]
    · intro p l hmem
      simp only [List.mem_append, List.mem_singleton] at hmem
      rcases hmem with h1 | h2
      · exact poll_no_set env _ 100 15 _ p l h1
      · exact Event.noConfusion h2
  · refine ⟨(coopPhase cfg env ext).1,
      (poll env (fun v => v != cfg.status_on) 100 15 (coopPhase cfg env ext).2).1
        ++ [Event.sleep 500], ?_, coopPhase_no_set cfg env ext, ?_⟩
    · simp [shutdown, hbranch, hf]
    · intro p l hmem
      simp only [List.mem_append, List.mem_singleton] at hmem
      rcases hmem with h1 | h2
      · exact poll_no_set env _ 100 15 _ p l h1
      · exact Event.noConfusion h2

/-- C1 (amended): every pulse transitions the pin inactive, active, inactive,
but the pin is held at its active level only for the second sub-delay (1100,
750 and 100 ms respectively); the first 500 ms sleep of each pulse happens at
the inactive level, before the active assertion. -/
theorem m95_c1_amended (cfg : Config) (envOff envOn : Nat → Bool)
    (hOff : envOff 0 ≠ cfg.status_on) (hOn : envOn 0 = cfg.status_on) :
    (setsFor cfg.power_pin (startup cfg envOff).1
        = [!cfg.power_on, cfg.power_on, !cfg.power_on]
      ∧ holdTime cfg.power_pin cfg.power_on (startup cfg envOff).1 none = 1100)
    ∧ (setsFor cfg.power_pin (shutdown cfg envOn false false).1
        = [!cfg.power_on, cfg.power_on, !cfg.power_on]
      ∧ holdTime cfg.power_pin cfg.power_on (shutdown cfg envOn false false).1 none = 750)
    ∧ (setsFor cfg.kill_pin (shutdown cfg envOn false true).1
        = [!cfg.kill_on, cfg.kill_on, !cfg.kill_on]
      ∧ holdTime cfg.kill_pin cfg.kill_on (shutdown cfg envOn false true).1 none = 100) := by
  obtain ⟨B1, hB1eq, hB1⟩ := startup_pulse_decomp cfg envOff hOff
  obtain ⟨B2, hB2eq, hB2⟩ := shutdown_graceful_decomp cfg envOn hOn
  obtain ⟨A3, B3, hB3eq, hA3, hB3⟩ := shutdown_forced_decomp cfg envOn false
  have r1 := pulse_ctx cfg.power_pin cfg.power_on 500 1100
    [Event.getStatus (envOff 0)] B1 (by simp) (fun l => hB1 cfg.power_pin l)
  have r2 := pulse_ctx cfg.power_pin cfg.power_on 500 750
    [Event.extShutdown false, Event.getStatus cfg.status_on] B2
    (by simp) (fun l => hB2 cfg.power_pin l)
  have r3 := pulse_ctx cfg.kill_pin cfg.kill_on 500 100 A3 B3
    (fun l => hA3 cfg.kill_pin l) (fun l => hB3 cfg.kill_pin l)
  rw [hB1eq, hB2eq, hB3eq]
  exact ⟨r1, r2, r3⟩

/-- C1, original form, refuted: at the default configuration, with status
rising after the pulse, `startup` holds the power pin at its active level for
1100 ms, not at least the 500+1100 ms the claim requires (the 500 ms sub-delay
is spent at the inactive level). -/
theorem m95_c1_counterexample :
    setsFor cfgEx.power_pin (startup cfgEx envRise).1
      = [!cfgEx.power_on, cfgEx.power_on, !cfgEx.power_on]
    ∧ holdTime cfgEx.power_pin cfgEx.power_on (startup cfgEx envRise).1 none = 1100
    ∧ ¬ (500 + 1100 ≤ holdTime cfgEx.power_pin cfgEx.power_on (startup cfgEx envRise).1 none) := by
  decide

/-! ### Concrete witnesses -/

/-- Witness for the amended C1 at the default configuration. -/
theorem m95_c1_amended_witness :
    holdTime cfgEx.power_pin cfgEx.power_on (startup cfgEx envRise).1 none = 1100
    ∧ holdTime cfgEx.power_pin cfgEx.power_on (shutdown cfgEx envOnC false false).1 none = 750
    ∧ holdTime cfgEx.kill_pin cfgEx.kill_on (shutdown cfgEx envOnC false true).1 none = 100 :=
  ⟨(m95_c1_amended cfgEx envRise envOnC (by decide) (by decide)).1.2,
   (m95_c1_amended cfgEx envRise envOnC (by decide) (by decide)).2.1.2,
   (m95_c1_amended cfgEx envRise envOnC (by decide) (by decide)).2.2.2⟩

/-- Witness for C3: an always-off status fails `startup`, an always-on status
fails forced `shutdown`. -/
theorem m95_c3_witness :
    (startup cfgEx envOffC).2 = Except.error MErr.hardwareInitializationError
    ∧ (shutdown cfgEx envOnC true true).2.1
        = Except.error MErr.hardwareInitializationError :=
  ⟨(m95_c3 cfgEx envOnC envOffC true true (fun _ => rfl) (fun _ h => Bool.noConfusion h)).1.1,
   (m95_c3 cfgEx envOnC envOffC true true (fun _ => rfl) (fun _ h => Bool.noConfusion h)).2.1⟩

/-- Witness for C4 with status already on at the default configuration. -/
theorem m95_c4_witness :
    (∀ p l, Event.set p l ∉ (startup cfgEx envOnC).1)
    ∧ (startup cfgEx envOnC).2 = Except.ok () :=
  m95_c4 cfgEx envOnC (fun _ => rfl)

/-- Witness for C5 with status already off at the default configuration. -/
theorem m95_c5_witness :
    (shutdown cfgEx envOffC false false).2.1 = Except.ok ()
    ∧ (shutdown cfgEx envOffC false false).2.2 = 125 :=
  ⟨(m95_c5 cfgEx envOffC false (fun _ h => Bool.noConfusion h)).2.1,
   (m95_c5 cfgEx envOffC false (fun _ h => Bool.noConfusion h)).2.2⟩

/-- Witness for C6 with a status pin that never turns off. -/
theorem m95_c6_witness :
    countGets (poll envOnC (fun v => v != cfgEx.status_on) 100 125 0).1 = 125 :=
  (m95_c6 cfgEx envOnC (fun _ => rfl)).1

/-- Witness for C8 on a successful startup at the default configuration. -/
theorem m95_c8_witness :
    ∃ pre, (startup cfgEx envOnC).1
      = pre ++ [Event.getStatus cfgEx.status_on, Event.sleep 500, Event.extStartup] :=
  (m95_c8 cfgEx envOnC).1 rfl

end M95
